import Mathlib

/-!
Verification of the PCjs pcjr.v1 core against its specification.

Shallow embedding of the three subsystems named by the claims:
  * the physical bus (`src/modules/devices/bus.js`): block table management
    (`addBlocks`), address routing (`readData`/`writeData`), and the per-block
    read/write trap machinery (`trapRead`/`untrapRead`/`trapWrite`/`untrapWrite`);
  * the 80286 segment-register unit (`src/unnamed/part_001`, class `X86Seg`):
    `loadReal`, the protected-mode check functions, the descriptor-install tail of
    `loadDesc8`, and `updateMode`;
  * the debugger (`src/unnamed/part_000`, the debugger class): `truncate`,
    breakpoint enable/disable encoding and the shared bus-trap callbacks.

JavaScript numbers are modelled as exact integers (`Nat`/`Int`); the 32-bit
coercions performed by JavaScript's bitwise operators (`|0`, `>>>0`, `&`, `<<`,
`>>`) are made explicit through the `toInt32`/`toUint32`/`jsAnd`/`jsShl`/`jsShr`
helpers below.
-/

/-- `NumIO.TWO_POW32` (the debugger's numeric support class, not under `src/`).
Modelled from the spec: "a disabled entry encodes the original address plus
`2^32`" (§3, Debugger state). -/
def TWO_POW32 : Nat := 4294967296

/-- JavaScript `x >>> 0` (ToUint32) on an exact integer. -/
def toUint32 (x : Int) : Int := x.emod 4294967296

/-- JavaScript `x | 0` (ToInt32) on an exact integer. -/
def toInt32 (x : Int) : Int := (x + 2147483648).emod 4294967296 - 2147483648

/-- JavaScript `a & b`: both operands pass through ToInt32, the 32-bit AND is
taken, and the result is read back as a signed 32-bit integer. -/
def jsAnd (a b : Int) : Int :=
  if (toUint32 a).toNat &&& (toUint32 b).toNat < 2147483648 then
    ((toUint32 a).toNat &&& (toUint32 b).toNat : Nat)
  else
    ((toUint32 a).toNat &&& (toUint32 b).toNat : Int) - 4294967296

/-- JavaScript `a << n`: ToInt32 on the operand, shift count mod 32, result
wrapped to a signed 32-bit integer. -/
def jsShl (a : Int) (n : Nat) : Int := toInt32 (toInt32 a * 2 ^ (n % 32))

/-- JavaScript `a >> n` (sign-propagating): arithmetic shift is floor division
by a power of two on the ToInt32 image of the operand. -/
def jsShr (a : Int) (n : Nat) : Int := Int.fdiv (toInt32 a) (2 ^ (n % 32))

/-- JavaScript `a % b` for integers (remainder takes the sign of the dividend),
i.e. truncated remainder. -/
def jsRem (a b : Int) : Int := Int.tmod a b

/-! ### Segment registers: `X86Seg` (`src/unnamed/part_001`)

The x86 descriptor/selector bit constants referenced by `X86Seg` live in the
repository's `x86.js`, which is not under `src/`.  Modelled from the spec:
§4.3.1 gives the descriptor layout (word 0 limit, word 1 base low, word 2
`acc` with type bits 8-11, S bit 12, DPL bits 13-14, present bit 15,
`base = base_low | ((acc & 0xFF) << 16)`), §8 gives `ACCESSED_OFFSET` = 5,
and the glossary gives the selector layout (bits 0-1 RPL, bit 2 table
indicator, upper 13 bits index). -/

/-- `X86.SEL`: selector bit fields.  Modelled from the spec (glossary,
"Selector"). -/
def SEL_RPL : Nat := 0x0003

/-- Selector table-indicator bit.  Modelled from the spec (glossary). -/
def SEL_LDT : Nat := 0x0004

/-- Selector index mask (upper 13 bits).  Modelled from the spec (glossary). -/
def SEL_MASK : Nat := 0xfff8

/-- `X86.DESC.ACC` field constants.  Modelled from the spec (§4.3.1 descriptor
word 2 layout: type bits 8-11, S bit 12, DPL bits 13-14, present bit 15). -/
def ACC_PRESENT : Nat := 0x8000

/-- DPL field mask (bits 13-14 of `acc`). -/
def ACC_DPL_MASK : Nat := 0x6000

/-- DPL field shift. -/
def ACC_DPL_SHIFT : Nat := 13

/-- Low byte of `acc` contributing base bits 16-23. -/
def ACC_BASE1623 : Nat := 0x00ff

/-- Type field mask (type bits 8-11 together with the S bit 12). -/
def TYPE_MASK : Nat := 0x1f00

/-- S bit: 1 for code/data segments, 0 for system descriptors. -/
def TYPE_SEG : Nat := 0x1000

/-- Byte offset (within the 8-byte descriptor) of the access byte holding the
ACCESSED bit; the spec (§8) calls it `ACCESSED_OFFSET` = 5. -/
def TYPE_OFFSET : Nat := 0x5

/-- ACCESSED bit within `acc` (lowest type bit, bit 8). -/
def TYPE_ACCESSED : Nat := 0x0100

/-- READABLE bit for code segments (bit 9). -/
def TYPE_READABLE : Nat := 0x0200

/-- WRITABLE bit for data segments (bit 9). -/
def TYPE_WRITABLE : Nat := 0x0200

/-- CONFORMING bit for code segments (bit 10). -/
def TYPE_CONFORMING : Nat := 0x0400

/-- EXPDOWN bit for data segments (bit 10). -/
def TYPE_EXPDOWN : Nat := 0x0400

/-- CODE bit (bit 11). -/
def TYPE_CODE : Nat := 0x0800

/-- System type: task state segment. -/
def TYPE_TSS : Nat := 0x0100

/-- System type: local descriptor table. -/
def TYPE_LDT : Nat := 0x0200

/-- System type: busy task state segment. -/
def TYPE_TSS_BUSY : Nat := 0x0300

/-- System type: call gate. -/
def TYPE_GATE_CALL : Nat := 0x0400

/-- System type: task gate. -/
def TYPE_GATE_TASK : Nat := 0x0500

/-- System type: interrupt gate. -/
def TYPE_GATE_INT : Nat := 0x0600

/-- System type: trap gate. -/
def TYPE_GATE_TRAP : Nat := 0x0700

/-- Type value of an execute-only code segment (`S` plus `CODE`). -/
def TYPE_CODE_EXECONLY : Nat := 0x1800

/-- Type bits tested to recognize an execute-only code segment
(`S`, `CODE` and `READABLE`). -/
def TYPE_CODE_READABLE : Nat := 0x1a00

/-- `X86Seg.ID` role constants (`src/unnamed/part_001:107-116`). -/
def ID_NULL : Nat := 0

/-- `X86Seg.ID.CODE`. -/
def ID_CODE : Nat := 1

/-- `X86Seg.ID.DATA`. -/
def ID_DATA : Nat := 2

/-- `X86Seg.ID.STACK`. -/
def ID_STACK : Nat := 3

/-- `X86Seg.ID.TSS`. -/
def ID_TSS : Nat := 4

/-- `X86Seg.ID.LDT`. -/
def ID_LDT : Nat := 5

/-- `X86Seg.ID.OTHER`. -/
def ID_OTHER : Nat := 6

/-- The check-function slot installed in `checkRead`/`checkWrite` by
`updateMode` (`src/unnamed/part_001:910-1010`): the source stores one of the
functions `checkReadReal`, `checkReadProt`, `checkReadProtDown`,
`checkReadProtDisallowed` (and the write counterparts) in the slot; the slot is
modelled as an enumeration and the functions themselves are defined below. -/
inductive CheckSlot where
  | real
  | prot
  | protDown
  | protDisallowed
deriving DecidableEq, Repr

/-- The load-function slot (`loadReal` vs `loadProt`). -/
inductive LoadSlot where
  | real
  | prot
deriving DecidableEq, Repr

/-- State of one `X86Seg` segment register (`src/unnamed/part_001:64-105`).
`addrDesc` is `none` when the source holds `X86.ADDR_INVALID`.  `fCall` is the
three-valued flag `null`/`true`/`false` of the source, modelled as
`Option Bool`. -/
structure X86SegState where
  id : Nat
  sel : Nat
  base : Nat
  limit : Nat
  offMax : Nat
  acc : Nat
  type : Nat
  ext : Nat
  cpl : Nat
  dpl : Nat
  addrDesc : Option Nat
  dataSize : Nat
  addrSize : Nat
  dataMask : Nat
  addrMask : Nat
  loadSlot : LoadSlot
  checkReadSlot : CheckSlot
  checkWriteSlot : CheckSlot
  fExpDown : Bool
  fCall : Option Bool
  fStackSwitch : Bool
deriving DecidableEq, Repr

/-- Initial field values of the `X86Seg` constructor
(`src/unnamed/part_001:64-105`), before its closing `updateMode` call. -/
def X86SegState.init (id : Nat) : X86SegState :=
  { id := id, sel := 0, base := 0, limit := 0xffff, offMax := 0x10000,
    acc := 0, type := 0, ext := 0, cpl := 0, dpl := 0, addrDesc := none,
    dataSize := 2, addrSize := 2, dataMask := 0xffff, addrMask := 0xffff,
    loadSlot := .real, checkReadSlot := .real, checkWriteSlot := .real,
    fExpDown := false, fCall := none, fStackSwitch := false }

/-- `X86Seg.prototype.loadReal` (`src/unnamed/part_001:128-139`):
`this.sel = sel & 0xffff; return this.base = this.sel << 4;`.
Returns the updated register together with the returned base. -/
def loadReal (sel : Nat) (s : X86SegState) : X86SegState × Nat :=
  let selNew := sel &&& 0xffff
  ({ s with sel := selNew, base := selNew <<< 4 }, selNew <<< 4)

/-- Result of a `check*` function: the linear address `(base + off)|0`, or the
source's `X86.ADDR_INVALID` sentinel.  `fGP0` records whether
`X86.fnFault(GP_FAULT, 0)` was raised (it is raised exactly when `fSuppress`
is false). -/
inductive CheckResult where
  | addr (lin : Int)
  | invalid (fGP0 : Bool)
deriving DecidableEq, Repr

/-- `X86Seg.prototype.checkReadProtDisallowed` (`src/unnamed/part_001:347-353`). -/
def checkReadProtDisallowed (_s : X86SegState) (_off _cb : Nat) (fSuppress : Bool) : CheckResult :=
  .invalid (!fSuppress)

/-- `X86Seg.prototype.checkWriteProtDisallowed` (`src/unnamed/part_001:406-412`). -/
def checkWriteProtDisallowed (_s : X86SegState) (_off _cb : Nat) (fSuppress : Bool) : CheckResult :=
  .invalid (!fSuppress)

/-- `X86Seg.prototype.checkReadProt` (`src/unnamed/part_001:305-315`):
succeeds when `(off >>> 0) + cb <= this.offMax`. -/
def checkReadProt (s : X86SegState) (off cb : Nat) (fSuppress : Bool) : CheckResult :=
  if off % TWO_POW32 + cb ≤ s.offMax then .addr (toInt32 (s.base + off))
  else checkReadProtDisallowed s off cb fSuppress

/-- `X86Seg.prototype.checkReadProtDown` (`src/unnamed/part_001:326-336`):
succeeds when `(off >>> 0) + cb > this.offMax`. -/
def checkReadProtDown (s : X86SegState) (off cb : Nat) (fSuppress : Bool) : CheckResult :=
  if off % TWO_POW32 + cb > s.offMax then .addr (toInt32 (s.base + off))
  else checkReadProtDisallowed s off cb fSuppress

/-- `X86Seg.prototype.checkWriteProt` (`src/unnamed/part_001:364-374`). -/
def checkWriteProt (s : X86SegState) (off cb : Nat) (fSuppress : Bool) : CheckResult :=
  if off % TWO_POW32 + cb ≤ s.offMax then .addr (toInt32 (s.base + off))
  else checkWriteProtDisallowed s off cb fSuppress

/-- `X86Seg.prototype.checkWriteProtDown` (`src/unnamed/part_001:385-395`). -/
def checkWriteProtDown (s : X86SegState) (off cb : Nat) (fSuppress : Bool) : CheckResult :=
  if off % TWO_POW32 + cb > s.offMax then .addr (toInt32 (s.base + off))
  else checkWriteProtDisallowed s off cb fSuppress

/-- `X86Seg.prototype.checkReadReal` (`src/unnamed/part_001:274-277`). -/
def checkReadReal (s : X86SegState) (off _cb : Nat) (_fSuppress : Bool) : CheckResult :=
  .addr (toInt32 (s.base + off))

/-- `X86Seg.prototype.checkWriteReal` (`src/unnamed/part_001:291-294`). -/
def checkWriteReal (s : X86SegState) (off _cb : Nat) (_fSuppress : Bool) : CheckResult :=
  .addr (toInt32 (s.base + off))

/-- Dispatch of `this.checkWrite(off, cb, fSuppress)` through the slot
installed by `updateMode`. -/
def runCheckWrite (s : X86SegState) (off cb : Nat) (fSuppress : Bool) : CheckResult :=
  match s.checkWriteSlot with
  | .real => checkWriteReal s off cb fSuppress
  | .prot => checkWriteProt s off cb fSuppress
  | .protDown => checkWriteProtDown s off cb fSuppress
  | .protDisallowed => checkWriteProtDisallowed s off cb fSuppress

/-- Dispatch of `this.checkRead(off, cb, fSuppress)` through the slot
installed by `updateMode`. -/
def runCheckRead (s : X86SegState) (off cb : Nat) (fSuppress : Bool) : CheckResult :=
  match s.checkReadSlot with
  | .real => checkReadReal s off cb fSuppress
  | .prot => checkReadProt s off cb fSuppress
  | .protDown => checkReadProtDown s off cb fSuppress
  | .protDisallowed => checkReadProtDisallowed s off cb fSuppress

/-- Byte-addressed linear memory as seen through `cpu.getByte`/`cpu.setByte`. -/
def Mem : Type := Nat → Nat

/-- The protected-mode check-slot selection of `X86Seg.prototype.updateMode`
(`src/unnamed/part_001:923-961`), factored over the scalar inputs it reads:
starting from `(checkReadProt, checkWriteProt)`, a null selector forces both
slots to the disallowed variants; otherwise, for an `S` descriptor, an
execute-only code type disallows reads, a code or non-writable type disallows
writes, and a non-code EXPDOWN type turns each still-default slot into the
expand-down variant and sets `fExpDown`.  Returns
`(checkReadSlot, checkWriteSlot, fExpDown)`. -/
def updateModeSlotsProt (sel acc : Nat) : CheckSlot × CheckSlot × Bool :=
  if sel &&& (0xffff ^^^ SEL_RPL) = 0 then
    (.protDisallowed, .protDisallowed, false)
  else if acc &&& TYPE_SEG ≠ 0 then
    let r := if acc &&& TYPE_CODE_READABLE = TYPE_CODE_EXECONLY then
               CheckSlot.protDisallowed else CheckSlot.prot
    let w := if acc &&& TYPE_CODE ≠ 0 ∨ acc &&& TYPE_WRITABLE = 0 then
               CheckSlot.protDisallowed else CheckSlot.prot
    if acc &&& (TYPE_CODE ||| TYPE_EXPDOWN) = TYPE_EXPDOWN then
      ((if r = .prot then .protDown else r),
       (if w = .prot then .protDown else w), true)
    else
      (r, w, false)
  else
    (.prot, .prot, false)

/-- `X86Seg.prototype.updateMode` (`src/unnamed/part_001:910-1010`) for a CPU
model below 80386 (the spec's core is the 80286 feature set, §1).  `fProt`
resolves the mode; the function rebinds the load/check slots (through
`updateModeSlotsProt`), recomputes `fExpDown`, and on `fLoad` in protected
mode sets the descriptor's ACCESSED bit in memory and refreshes `cpl`, `dpl`
and the size defaults. -/
def updateMode (fLoad : Bool) (fProt : Bool) (s : X86SegState) (mem : Mem) :
    X86SegState × Mem :=
  if fProt then
    let slots := updateModeSlotsProt s.sel s.acc
    let s := { s with fExpDown := slots.2.2, loadSlot := .prot,
                      checkReadSlot := slots.1, checkWriteSlot := slots.2.1 }
    if fLoad then
      let mem :=
        match s.addrDesc with
        | some d =>
          if s.sel &&& (0xffff ^^^ SEL_RPL) ≠ 0 then
            Function.update mem (d + TYPE_OFFSET)
              (mem (d + TYPE_OFFSET) ||| (TYPE_ACCESSED >>> 8))
          else mem
        | none => mem
      let s := { s with cpl := s.sel &&& SEL_RPL,
                        dpl := (s.acc &&& ACC_DPL_MASK) >>> ACC_DPL_SHIFT,
                        dataSize := 2, dataMask := 0xffff,
                        addrSize := 2, addrMask := 0xffff }
      (s, mem)
    else (s, mem)
  else
    ({ s with fExpDown := false, loadSlot := .real,
              checkReadSlot := .real, checkWriteSlot := .real,
              cpl := 0, dpl := 0, addrDesc := none }, mem)

/-- The success tail of `X86Seg.prototype.loadDesc8`
(`src/unnamed/part_001:801-809`): store the descriptor fields into the
register, then `updateMode(true)` (protected mode). -/
def loadDesc8Install (s : X86SegState) (sel base limit acc ext : Nat)
    (addrDesc : Option Nat) (mem : Mem) : X86SegState × Mem :=
  let s := { s with sel := sel, base := base, limit := limit,
                    offMax := limit + 1, acc := acc, type := acc &&& TYPE_MASK,
                    ext := ext, addrDesc := addrDesc }
  updateMode true true s mem

/-- The privilege/present decision of the `X86Seg.ID.CODE` branch of
`loadDesc8` for non-gate descriptors (`src/unnamed/part_001:619-654`):
`some true` means the load proceeds to install the descriptor, `some false`
means it fails with `ADDR_INVALID`; `none` means the descriptor is a gate (or
data/system) type handled by the gate path, which is outside this embedding. -/
def loadDesc8CodeCheck (cpl : Nat) (fCall : Option Bool) (sel acc : Nat) : Option Bool :=
  let selMasked := sel &&& SEL_MASK
  let type := acc &&& TYPE_MASK
  let rpl := sel &&& SEL_RPL
  let dpl := (acc &&& ACC_DPL_MASK) >>> ACC_DPL_SHIFT
  if selMasked ≠ 0 ∧ acc &&& ACC_PRESENT = 0 then
    some false
  else if TYPE_CODE_EXECONLY ≤ type then
    if rpl > cpl then
      if fCall ≠ some false ∧
          ¬(dpl = cpl ∨ (acc &&& TYPE_CONFORMING ≠ 0 ∧ dpl ≤ cpl)) then
        some false
      else
        some true
    else
      some true
  else
    none

/-! ### Bus block table: `Bus.addBlocks` (`src/modules/devices/bus.js`) -/

/-- `Memory.TYPE` constants of the Memory device (`modules/devices/memory.js`,
not under `src/`).  Modelled from the spec: "type ∈ {NONE, RAM, ROM, VIDEO, …}"
(§3, Memory Block). -/
inductive MemType where
  | NONE
  | RAM
  | ROM
  | VIDEO
deriving DecidableEq, Repr

/-- A Memory block as handled by `Bus.addBlocks`: the construction-time
attributes the bus reads (`type`, `size`, `values`) and writes (`addr`).
Modelled from the spec (§3, Memory Block essential attributes); the Memory
device class itself is not under `src/`. -/
structure Memory where
  type : MemType
  addr : Option Nat
  size : Nat
  values : Option (List Nat)
deriving DecidableEq, Repr

/-- Bus state as consumed by `addBlocks`: the block size, its log2, and the
block table (`src/modules/devices/bus.js:70-87`). -/
structure BusBlocks where
  blockSize : Nat
  blockShift : Nat
  blocks : List Memory
deriving DecidableEq, Repr

/-- The while-loop of `Bus.addBlocks` (`src/modules/devices/bus.js:104-149`).
The loop variables `addrNext`, `sizeLeft`, `offset`, `iBlock` are threaded
explicitly; `fuel` bounds the iteration count (each iteration increments
`iBlock`, so `blocks.length` iterations always suffice).  Device-id strings
(`nBlocks` naming) are not modelled. -/
def addBlocksGo (blockSize : Nat) (ty : MemType) (block? : Option Memory) :
    Nat → List Memory → Nat → Nat → Nat → Nat → List Memory × Bool
  | 0, blocks, _, _, _, _ => (blocks, true)
  | fuel + 1, blocks, addrNext, sizeLeft, offset, iBlock =>
    if sizeLeft > 0 ∧ iBlock < blocks.length then
      let addrBlock := iBlock * blockSize
      let sizeBlock0 := blockSize - (addrNext - addrBlock)
      let sizeBlock := if sizeBlock0 > sizeLeft then sizeLeft else sizeBlock0
      match blocks.get? iBlock with
      | none => (blocks, true)
      | some blockExisting =>
        if blockExisting.type ≠ MemType.NONE then
          (blocks, false)
        else
          let blockNew :=
            match block? with
            | none => { type := ty, addr := some addrNext, size := sizeBlock, values := none }
            | some blk =>
              if blk.size = blockSize then blk
              else
                { type := ty, addr := some addrNext, size := sizeBlock,
                  values := blk.values.map (fun vs => (vs.drop offset).take sizeBlock) }
          addBlocksGo blockSize ty block? fuel (blocks.set iBlock blockNew)
            (addrBlock + blockSize) (sizeLeft - sizeBlock) (offset + sizeBlock) (iBlock + 1)
    else
      (blocks, true)

/-- `Bus.addBlocks(addr, size, type, block)` (`src/modules/devices/bus.js:104-149`). -/
def addBlocks (bus : BusBlocks) (addr size : Nat) (ty : MemType) (block? : Option Memory) :
    BusBlocks × Bool :=
  let r := addBlocksGo bus.blockSize ty block? bus.blocks.length bus.blocks
    addr size 0 (addr >>> bus.blockShift)
  ({ bus with blocks := r.1 }, r.2)

/-! ### Bus traps (`src/modules/devices/bus.js:232-325`)

JavaScript compares the stored trap callback against the supplied one by
function identity (`block.readTrap == func`); callbacks are therefore modelled
as opaque identities (`Nat` tags).  The `readData`/`writeData` slot of a block
holds either an ordinary access function or the trap wrapper closure spliced in
by `trapRead`/`trapWrite`; the slot is modelled by `AccessSlot`. -/

/-- The function held in a block's `readData` (or `writeData`) slot: a plain
access function (identified by a tag) or the trap wrapper closure. -/
inductive AccessSlot where
  | fn (tag : Nat)
  | wrapper
deriving DecidableEq, Repr

/-- The trap-related state of one Memory block
(`readData`, `readPrev`, `readTrap`, `nReadTraps` and the write quadruple);
`readPrev`/`readTrap` are `none` when the source holds `undefined`. -/
structure TrapBlock where
  readData : AccessSlot
  readPrev : Option AccessSlot
  readTrap : Option Nat
  nReadTraps : Nat
  writeData : AccessSlot
  writePrev : Option AccessSlot
  writeTrap : Option Nat
  nWriteTraps : Nat
deriving DecidableEq, Repr

/-- `Bus.trapRead(addr, func)` (`src/modules/devices/bus.js:232-252`), acting
on the block containing `addr`.  Returns the updated block and the boolean
result. -/
def trapRead (func : Nat) (b : TrapBlock) : TrapBlock × Bool :=
  if b.nReadTraps = 0 then
    ({ b with nReadTraps := 1, readTrap := some func,
              readPrev := some b.readData, readData := .wrapper }, true)
  else if b.readTrap = some func then
    ({ b with nReadTraps := b.nReadTraps + 1 }, true)
  else
    (b, false)

/-- `Bus.trapWrite(addr, func)` (`src/modules/devices/bus.js:262-281`). -/
def trapWrite (func : Nat) (b : TrapBlock) : TrapBlock × Bool :=
  if b.nWriteTraps = 0 then
    ({ b with nWriteTraps := 1, writeTrap := some func,
              writePrev := some b.writeData, writeData := .wrapper }, true)
  else if b.writeTrap = some func then
    ({ b with nWriteTraps := b.nWriteTraps + 1 }, true)
  else
    (b, false)

/-- `Bus.untrapRead(addr, func)` (`src/modules/devices/bus.js:291-303`). -/
def untrapRead (func : Nat) (b : TrapBlock) : TrapBlock × Bool :=
  if b.nReadTraps ≠ 0 ∧ b.readTrap = some func then
    if b.nReadTraps - 1 = 0 then
      ({ b with nReadTraps := 0, readData := b.readPrev.getD b.readData,
                readPrev := none, readTrap := none }, true)
    else
      ({ b with nReadTraps := b.nReadTraps - 1 }, true)
  else
    (b, false)

/-- `Bus.untrapWrite(addr, func)` (`src/modules/devices/bus.js:313-325`). -/
def untrapWrite (func : Nat) (b : TrapBlock) : TrapBlock × Bool :=
  if b.nWriteTraps ≠ 0 ∧ b.writeTrap = some func then
    if b.nWriteTraps - 1 = 0 then
      ({ b with nWriteTraps := 0, writeData := b.writePrev.getD b.writeData,
                writePrev := none, writeTrap := none }, true)
    else
      ({ b with nWriteTraps := b.nWriteTraps - 1 }, true)
  else
    (b, false)

/-- A block with no traps installed on either side. -/
def TrapBlock.untrapped (b : TrapBlock) : Prop :=
  b.nReadTraps = 0 ∧ b.readPrev = none ∧ b.readTrap = none ∧
  b.nWriteTraps = 0 ∧ b.writePrev = none ∧ b.writeTrap = none

instance (b : TrapBlock) : Decidable b.untrapped := by
  unfold TrapBlock.untrapped; infer_instance

/-- `n` repeated calls of `trapRead(a, f)` on the same block (states only). -/
def trapReadIter (func : Nat) (n : Nat) (b : TrapBlock) : TrapBlock :=
  (fun x => (trapRead func x).1)^[n] b

/-- `k` repeated calls of `untrapRead(a, f)` (states only). -/
def untrapReadIter (func : Nat) (k : Nat) (b : TrapBlock) : TrapBlock :=
  (fun x => (untrapRead func x).1)^[k] b

/-- `n` repeated calls of `trapWrite(a, f)` (states only). -/
def trapWriteIter (func : Nat) (n : Nat) (b : TrapBlock) : TrapBlock :=
  (fun x => (trapWrite func x).1)^[n] b

/-- `k` repeated calls of `untrapWrite(a, f)` (states only). -/
def untrapWriteIter (func : Nat) (k : Nat) (b : TrapBlock) : TrapBlock :=
  (fun x => (untrapWrite func x).1)^[k] b

/-- The read-trap state of a block after `m` stacked `trapRead(a, f)` calls on
an initially untrapped block `b0`: the wrapper is installed, `readPrev` holds
the pre-trap `readData`, and the reference count is `m`. -/
def installedRead (b0 : TrapBlock) (f : Nat) (m : Nat) : TrapBlock :=
  { b0 with nReadTraps := m, readTrap := some f,
            readPrev := some b0.readData, readData := .wrapper }

/-- The write-trap state of a block after `m` stacked `trapWrite(a, f)` calls
on an initially untrapped block `b0`. -/
def installedWrite (b0 : TrapBlock) (f : Nat) (m : Nat) : TrapBlock :=
  { b0 with nWriteTraps := m, writeTrap := some f,
            writePrev := some b0.writeData, writeData := .wrapper }

/-- Value returned by `block.readData(offset)` given an interpretation
`interp` of the plain access-function tags: a plain slot reads directly; the
trap wrapper reads through `readPrev` (`src/modules/devices/bus.js:236-240`)
and returns that value unchanged. -/
def readThrough (interp : Nat → Nat → Nat) (b : TrapBlock) (offset : Nat) : Nat :=
  match b.readData with
  | .fn g => interp g offset
  | .wrapper =>
    match b.readPrev with
    | some (.fn g) => interp g offset
    | _ => 0

/-- Contents of one block, as read and written by the previously installed
access functions that a trap wrapper delegates to. -/
def BlockMem : Type := Nat → Nat

/-- The read trap wrapper `readTrap` spliced in by `Bus.trapRead`
(`src/modules/devices/bus.js:236-240`):

    let value = block.readPrev(offset);
    block.readTrap(block.addr + offset, value);
    return value;

`readPrevF` is the previously installed read function over the block contents.
The result is the returned value paired with the `(address, value)` arguments
the callback is invoked with; the callback runs after the read, so its value
argument is exactly the value read. -/
def readTrapWrapper (readPrevF : BlockMem → Nat → Nat) (blockAddr : Nat)
    (mem : BlockMem) (offset : Nat) : Nat × (Nat × Nat) :=
  let value := readPrevF mem offset
  (value, (blockAddr + offset, value))

/-- The write trap wrapper `writeTrap` spliced in by `Bus.trapWrite`
(`src/modules/devices/bus.js:266-269`):

    block.writeTrap(block.addr + offset, value);
    block.writePrev(offset, value);

`writePrevF` is the previously installed write function.  The result is the
block contents after the store, paired with the `(address, value, contents)`
triple seen by the callback: the callback runs before the store, so the
contents it can observe are the pre-store contents `mem`. -/
def writeTrapWrapper (writePrevF : BlockMem → Nat → Nat → BlockMem) (blockAddr : Nat)
    (mem : BlockMem) (offset value : Nat) : BlockMem × (Nat × Nat × BlockMem) :=
  let cbArgs := (blockAddr + offset, value, mem)
  (writePrevF mem offset value, cbArgs)

/-! ### Bus address routing (`src/modules/devices/bus.js:195-219`) -/

/-- Bus state as consumed by `readData`/`writeData`: the configuration-derived
constants of the constructor (`src/modules/devices/bus.js:70-87`) and the block
contents, with `blockMem i` standing for the `readData`/`writeData` backing of
`blocks[i]`. -/
structure BusRoute where
  addrWidth : Nat
  blockShift : Nat
  blockMem : Nat → Nat → Nat

/-- `this.addrTotal = Math.pow(2, this.addrWidth)`. -/
def BusRoute.addrTotal (bus : BusRoute) : Nat := 2 ^ bus.addrWidth

/-- `this.addrLimit = (this.addrTotal - 1)|0` (nonnegative for
`addrWidth ≤ 31`). -/
def BusRoute.addrLimit (bus : BusRoute) : Nat := 2 ^ bus.addrWidth - 1

/-- `this.blockLimit = (1 << this.blockShift) - 1`. -/
def BusRoute.blockLimit (bus : BusRoute) : Nat := 2 ^ bus.blockShift - 1

/-- `this.blockTotal = (this.addrTotal / this.blockSize)|0`. -/
def BusRoute.blockTotal (bus : BusRoute) : Nat := 2 ^ (bus.addrWidth - bus.blockShift)

/-- The block index `(addr & this.addrLimit) >>> this.blockShift` computed by
`readData`/`writeData`; the JavaScript `&` coerces `addr` through ToInt32,
which keeps exactly its low 32 bits. -/
def BusRoute.blockIndex (bus : BusRoute) (addr : Nat) : Nat :=
  ((addr % TWO_POW32) &&& bus.addrLimit) >>> bus.blockShift

/-- The block offset `addr & this.blockLimit`. -/
def BusRoute.blockOffset (bus : BusRoute) (addr : Nat) : Nat :=
  (addr % TWO_POW32) &&& bus.blockLimit

/-- `Bus.readData(addr)` (`src/modules/devices/bus.js:195-206`):
`this.blocks[(addr & this.addrLimit) >>> this.blockShift].readData(addr & this.blockLimit)`. -/
def BusRoute.readData (bus : BusRoute) (addr : Nat) : Nat :=
  bus.blockMem (bus.blockIndex addr) (bus.blockOffset addr)

/-- `Bus.writeData(addr, value)` (`src/modules/devices/bus.js:208-219`):
delegates the store to the same block and offset that `readData` selects. -/
def BusRoute.writeData (bus : BusRoute) (addr value : Nat) : BusRoute :=
  { bus with blockMem := fun i o =>
      if i = bus.blockIndex addr ∧ o = bus.blockOffset addr then value
      else bus.blockMem i o }

/-! ### Debugger (`src/unnamed/part_000`) -/

/-- The truncation body of `truncate(v, nBits, fUnsigned)`
(`src/unnamed/part_000:1018-1063`) for a resolved nonzero `nBits`.  The
JavaScript bitwise paths (`>>> 0`, `&`, `<<`, `>>`) go through the 32-bit
helpers; `Math.pow(2, nBits)` and `%` are exact on the modelled integers. -/
def truncateBits (v : Int) (nBits : Nat) (fUnsigned : Bool) : Int :=
  if fUnsigned then
    if nBits = 32 then
      toUint32 v
    else if nBits < 32 then
      jsAnd v (jsShl 1 nBits - 1)
    else
      if v < 0 ∨ v ≥ 2 ^ nBits then
        if jsRem v (2 ^ nBits) < 0 then jsRem v (2 ^ nBits) + 2 ^ nBits
        else jsRem v (2 ^ nBits)
      else v
  else
    if nBits ≤ 32 then
      jsShr (jsShl v (32 - nBits)) (32 - nBits)
    else
      if v ≥ 2 ^ (nBits - 1) then
        if jsAnd (toInt32 (Int.tdiv v (2 ^ (nBits - 1)))) 1 ≠ 0 then
          jsRem v (2 ^ (nBits - 1)) - 2 ^ (nBits - 1)
        else jsRem v (2 ^ (nBits - 1))
      else if v < -(2 ^ (nBits - 1)) then
        if jsAnd (toInt32 (Int.tdiv (-v - 1) (2 ^ (nBits - 1)))) 1 ≠ 0 then
          if jsRem v (2 ^ (nBits - 1)) ≠ 0 then
            jsRem v (2 ^ (nBits - 1)) + 2 ^ (nBits - 1)
          else jsRem v (2 ^ (nBits - 1))
        else
          if jsRem v (2 ^ (nBits - 1)) = 0 then
            jsRem v (2 ^ (nBits - 1)) - 2 ^ (nBits - 1)
          else jsRem v (2 ^ (nBits - 1))
      else v

/-- `truncate(v, nBits, fUnsigned)` (`src/unnamed/part_000:1018-1063`):
`nBits = nBits || this.nDefaultBits` resolves a zero (falsy) bit count to the
debugger default (`nDefaultBits` stands for `this.nDefaultBits`), then the
value is truncated by `truncateBits`. -/
def truncate (nDefaultBits : Nat) (v : Int) (nBits0 : Nat) (fUnsigned : Bool) : Int :=
  truncateBits v (if nBits0 = 0 then nDefaultBits else nBits0) fUnsigned

/-- One step of `enableBreak(index, enable)` on the addressed table entry
(`src/unnamed/part_000:1147-1190`): given the stored entry `addr`, returns the
new entry together with the success flag.  An enabled entry is below
`TWO_POW32`; disabling rewrites it to `(addr >>> 0) + TWO_POW32`; enabling a
disabled entry rewrites it to `(addr - TWO_POW32)|0`. -/
def enableBreakEntry (enable : Bool) (addr : Int) : Int × Bool :=
  if addr < (TWO_POW32 : Int) then
    if enable then (addr, false)
    else (toUint32 addr + (TWO_POW32 : Int), true)
  else
    if !enable then (addr, false)
    else (toInt32 (addr - (TWO_POW32 : Int)), true)

/-- The breakpoint test of `checkBusRead` (`src/unnamed/part_000:1289-1291`):
the CPU is stopped exactly when the exact access address occurs in
`aBreakReadAddr` (`indexOf(addr) >= 0`).  The history recording of
`src/unnamed/part_000:1285-1288` updates only the history ring buffer and
does not influence stopping. -/
def checkBusReadStops (aBreakReadAddr : List Int) (addr : Int) : Bool :=
  aBreakReadAddr.contains addr

/-- The breakpoint test of `checkBusWrite` (`src/unnamed/part_000:1301-1306`). -/
def checkBusWriteStops (aBreakWriteAddr : List Int) (addr : Int) : Bool :=
  aBreakWriteAddr.contains addr

/-! ### Helper lemmas -/

theorem or_one_and_one (x : Nat) : (x ||| 1) &&& 1 = 1 := by
  apply Nat.eq_of_testBit_eq
  intro j
  rw [Nat.testBit_and, Nat.testBit_or]
  cases j with
  | zero => simp
  | succ n =>
    have h1 : (1 : Nat).testBit (n + 1) = false := by
      simp [Nat.testBit_succ]
    simp [h1]

theorem neg_tmod_eq (a b : Int) : (-a).tmod b = -(a.tmod b) := by
  rw [Int.tmod_def, Int.tmod_def, Int.neg_tdiv]
  ring

theorem tmod_fix (v b : Int) (hb : 0 < b) :
    (if v.tmod b < 0 then v.tmod b + b else v.tmod b) = v.emod b := by
  have hq : v.tmod b = v - b * (v.tdiv b) := Int.tmod_def v b
  have hub : v.tmod b < b := Int.tmod_lt_of_pos v hb
  have hlb : -b < v.tmod b := by
    rcases le_or_lt 0 v with hv | hv
    · have := Int.tmod_nonneg b hv
      omega
    · have h1 : (-v).tmod b = -(v.tmod b) := neg_tmod_eq v b
      have h2 : 0 ≤ (-v).tmod b := Int.tmod_nonneg b (by omega)
      have h3 : (-v).tmod b < b := Int.tmod_lt_of_pos _ hb
      omega
  split
  case isTrue h =>
    calc v.tmod b + b
        = (v.tmod b + b).emod b := (Int.emod_eq_of_lt (by omega) (by omega)).symm
      _ = (v + b * (1 - v.tdiv b)).emod b := by
          congr 1
          rw [hq]; ring
      _ = v.emod b := Int.add_mul_emod_self_left v b _
  case isFalse h =>
    calc v.tmod b
        = (v.tmod b).emod b := (Int.emod_eq_of_lt (by omega) (by omega)).symm
      _ = (v + b * (-(v.tdiv b))).emod b := by
          congr 1
          rw [hq]; ring
      _ = v.emod b := Int.add_mul_emod_self_left v b _

/-- Claim C7: in real mode, `load(sel)` stores `sel & 0xFFFF`, sets
`base = (sel & 0xFFFF) << 4` and returns that base (in particular
`CS.load(0xF000)` yields base `0xF0000`), and leaves `limit`, `offMax`, `acc`,
`type`, `ext`, `cpl`, `dpl`, `addrDesc`, `dataSize`, `addrSize`, `dataMask`,
`addrMask` unchanged. -/
theorem loadReal_spec (sel : Nat) (s : X86SegState) :
    (loadReal sel s).1.sel = sel &&& 0xffff ∧
    (loadReal sel s).1.base = (sel &&& 0xffff) <<< 4 ∧
    (loadReal sel s).2 = (loadReal sel s).1.base ∧
    (loadReal 0xf000 s).1.base = 0xf0000 ∧
    (loadReal sel s).1.limit = s.limit ∧
    (loadReal sel s).1.offMax = s.offMax ∧
    (loadReal sel s).1.acc = s.acc ∧
    (loadReal sel s).1.type = s.type ∧
    (loadReal sel s).1.ext = s.ext ∧
    (loadReal sel s).1.cpl = s.cpl ∧
    (loadReal sel s).1.dpl = s.dpl ∧
    (loadReal sel s).1.addrDesc = s.addrDesc ∧
    (loadReal sel s).1.dataSize = s.dataSize ∧
    (loadReal sel s).1.addrSize = s.addrSize ∧
    (loadReal sel s).1.dataMask = s.dataMask ∧
    (loadReal sel s).1.addrMask = s.addrMask :=
  ⟨rfl, rfl, rfl, rfl, rfl, rfl, rfl, rfl, rfl, rfl, rfl, rfl, rfl, rfl, rfl, rfl⟩

/-- Claim C5: a read trap wrapper first reads through the previously installed
read function and only then invokes the callback with
`(block.addr + offset, value)`, returning the value unchanged; a write trap
wrapper invokes the callback with `(block.addr + offset, value)` before
delegating the store to the previously installed write function, so the write
callback observes the pre-store block contents (at `offset` it sees the old
value, while after the wrapper the stored value is in place). -/
theorem trap_callback_ordering (readPrevF : BlockMem → Nat → Nat)
    (writePrevF : BlockMem → Nat → Nat → BlockMem) (blockAddr : Nat)
    (mem : BlockMem) (off v : Nat) :
    (readTrapWrapper readPrevF blockAddr mem off).1 = readPrevF mem off ∧
    (readTrapWrapper readPrevF blockAddr mem off).2 =
      (blockAddr + off, (readTrapWrapper readPrevF blockAddr mem off).1) ∧
    (writeTrapWrapper writePrevF blockAddr mem off v).2 = (blockAddr + off, v, mem) ∧
    (writeTrapWrapper writePrevF blockAddr mem off v).1 = writePrevF mem off v ∧
    ((writeTrapWrapper (fun m o val o' => if o' = o then val else m o') blockAddr
        mem off v).2.2.2 off = mem off ∧
     (writeTrapWrapper (fun m o val o' => if o' = o then val else m o') blockAddr
        mem off v).1 off = v) :=
  ⟨rfl, rfl, rfl, rfl, rfl, by simp [writeTrapWrapper]⟩

/-- Claim C3 counterexample: with `fCall = null`, CPL 0, and a present
non-conforming code descriptor with DPL 0 (`acc = 0x9800`), loading selector
`0x0009` (RPL 1, numerically greater than CPL 0) SUCCEEDS in the code-segment
branch of `loadDesc8`, contradicting the claim that any load with
`RPL > CPL` fails when `fCall` is null. -/
theorem loadDesc8_code_rpl_gt_cpl_fCall_null_succeeds :
    loadDesc8CodeCheck 0 none 9 0x9800 = some true ∧
    9 &&& SEL_RPL = 1 ∧ (1 : Nat) > 0 := by
  decide

/-- Claim C3 (amended): for the CODE segment register with `fCall = null`,
loading a normal (non-gate) code-segment selector whose RPL is numerically
greater than the current CPL fails exactly when neither `DPL = CPL` nor
(the segment is conforming and `DPL ≤ CPL`); a JMPF-style load (`fCall`
null) is treated like a CALLF for this privilege test, so such loads can
succeed. -/
theorem loadDesc8_code_fCall_null_privilege_spec (cpl sel acc : Nat)
    (hcode : TYPE_CODE_EXECONLY ≤ acc &&& TYPE_MASK)
    (hpres : ¬(sel &&& SEL_MASK ≠ 0 ∧ acc &&& ACC_PRESENT = 0))
    (hrpl : sel &&& SEL_RPL > cpl) :
    loadDesc8CodeCheck cpl none sel acc =
      some (decide ((acc &&& ACC_DPL_MASK) >>> ACC_DPL_SHIFT = cpl ∨
        (acc &&& TYPE_CONFORMING ≠ 0 ∧
          (acc &&& ACC_DPL_MASK) >>> ACC_DPL_SHIFT ≤ cpl))) := by
  unfold loadDesc8CodeCheck
  rw [if_neg hpres, if_pos hcode, if_pos hrpl]
  by_cases hp : (acc &&& ACC_DPL_MASK) >>> ACC_DPL_SHIFT = cpl ∨
      (acc &&& TYPE_CONFORMING ≠ 0 ∧ (acc &&& ACC_DPL_MASK) >>> ACC_DPL_SHIFT ≤ cpl)
  · rw [if_neg (by simp [hp]), decide_eq_true hp]
  · rw [if_pos ⟨by simp, hp⟩, decide_eq_false hp]

/-- Claim C3 witness: a concrete failing load under the amended rule
(CPL 0, selector `0x000B` with RPL 3, present non-conforming code descriptor
with DPL 1). -/
theorem loadDesc8_code_fCall_null_privilege_spec_witness :
    loadDesc8CodeCheck 0 none 0xb 0xb800 = some false := by
  have h := loadDesc8_code_fCall_null_privilege_spec 0 0xb 0xb800
    (by decide) (by decide) (by decide)
  simpa using h

/-- Claim C10 counterexample: for breakpoint address `0x80000000`, a disable
followed by an enable leaves `-0x80000000` in the table (the `|0` coercion of
`enableBreak`), not the original address, so a matching bus access no longer
stops the clock even though it did before the disable/enable round trip. -/
theorem enableBreak_reenable_high_address_lost :
    (enableBreakEntry false (2147483648 : Int)).1 = 2147483648 + 4294967296 ∧
    (enableBreakEntry true (enableBreakEntry false (2147483648 : Int)).1).1 =
      -2147483648 ∧
    checkBusReadStops
      [(enableBreakEntry true (enableBreakEntry false (2147483648 : Int)).1).1]
      2147483648 = false ∧
    checkBusReadStops [(2147483648 : Int)] 2147483648 = true := by
  decide

/-- Claim C10 (amended): disabling a breakpoint rewrites its table entry to
`(addr >>> 0) + 2^32`, which can never equal any 32-bit bus address, so while
disabled no bus access at the breakpoint address stops the clock (the bus trap
itself is untouched, as `enableBreak` only rewrites the table entry);
re-enabling stores `((entry - 2^32) | 0)`, the 32-bit signed interpretation of
the original address — exactly the original address whenever it is below
`2^31` — after which a matching access stops the clock again. -/
theorem enableBreak_disable_enable_spec (o : Int) (h0 : 0 ≤ o)
    (h32 : o < (TWO_POW32 : Nat)) :
    (enableBreakEntry false o).2 = true ∧
    (enableBreakEntry false o).1 = o + (TWO_POW32 : Nat) ∧
    (∀ busAddr : Int, 0 ≤ busAddr → busAddr < (TWO_POW32 : Nat) →
      checkBusReadStops [(enableBreakEntry false o).1] busAddr = false ∧
      checkBusWriteStops [(enableBreakEntry false o).1] busAddr = false) ∧
    (enableBreakEntry true (enableBreakEntry false o).1).1 = toInt32 o ∧
    (o < 2147483648 →
      (enableBreakEntry true (enableBreakEntry false o).1).1 = o ∧
      checkBusReadStops
        [(enableBreakEntry true (enableBreakEntry false o).1).1] o = true) := by
  have hcast : ((TWO_POW32 : Nat) : Int) = 4294967296 := by norm_num [TWO_POW32]
  have hu : toUint32 o = o := by
    show o % 4294967296 = o
    exact Int.emod_eq_of_lt h0 (by omega)
  have hdis : enableBreakEntry false o = (o + 4294967296, true) := by
    rw [enableBreakEntry]
    simp only [hcast]
    rw [if_pos (by omega)]
    simp [hu]
  have hena : (enableBreakEntry true (enableBreakEntry false o).1).1 = toInt32 o := by
    rw [hdis]
    rw [enableBreakEntry]
    simp only [hcast]
    rw [if_neg (by omega)]
    simp [toInt32]
  refine ⟨by rw [hdis], by rw [hdis, hcast], ?_, hena, ?_⟩
  · intro busAddr hb0 hb32
    rw [hdis]
    constructor
    · simp only [checkBusReadStops, List.contains_cons, List.contains_nil,
        Bool.or_false, beq_eq_false_iff_ne, ne_eq]
      omega
    · simp only [checkBusWriteStops, List.contains_cons, List.contains_nil,
        Bool.or_false, beq_eq_false_iff_ne, ne_eq]
      omega
  · intro hlt
    have ht : toInt32 o = o := by
      show (o + 2147483648) % 4294967296 - 2147483648 = o
      rw [Int.emod_eq_of_lt (by omega) (by omega)]
      omega
    refine ⟨by rw [hena, ht], ?_⟩
    rw [hena, ht]
    simp [checkBusReadStops]

/-- Claim C10 witness: a concrete disable/enable round trip at address
`0x1234` (below `2^31`) restores the entry and a matching read stops the
clock. -/
theorem enableBreak_disable_enable_spec_witness :
    (enableBreakEntry false (0x1234 : Int)).2 = true ∧
    (enableBreakEntry true (enableBreakEntry false (0x1234 : Int)).1).1 = 0x1234 ∧
    checkBusReadStops
      [(enableBreakEntry true (enableBreakEntry false (0x1234 : Int)).1).1]
      0x1234 = true := by
  have h := enableBreak_disable_enable_spec 0x1234 (by decide) (by decide)
  exact ⟨h.1, (h.2.2.2.2 (by decide)).1, (h.2.2.2.2 (by decide)).2⟩

theorem trapReadIter_succ (f : Nat) (n : Nat) (b : TrapBlock) :
    trapReadIter f (n + 1) b = (trapRead f (trapReadIter f n b)).1 := by
  unfold trapReadIter
  rw [Function.iterate_succ_apply']

theorem trapWriteIter_succ (f : Nat) (n : Nat) (b : TrapBlock) :
    trapWriteIter f (n + 1) b = (trapWrite f (trapWriteIter f n b)).1 := by
  unfold trapWriteIter
  rw [Function.iterate_succ_apply']

theorem untrapReadIter_succ (f : Nat) (n : Nat) (b : TrapBlock) :
    untrapReadIter f (n + 1) b = (untrapRead f (untrapReadIter f n b)).1 := by
  unfold untrapReadIter
  rw [Function.iterate_succ_apply']

theorem untrapWriteIter_succ (f : Nat) (n : Nat) (b : TrapBlock) :
    untrapWriteIter f (n + 1) b = (untrapWrite f (untrapWriteIter f n b)).1 := by
  unfold untrapWriteIter
  rw [Function.iterate_succ_apply']

theorem trapReadIter_zero (f : Nat) (b : TrapBlock) : trapReadIter f 0 b = b := rfl

theorem trapWriteIter_zero (f : Nat) (b : TrapBlock) : trapWriteIter f 0 b = b := rfl

theorem untrapReadIter_zero (f : Nat) (b : TrapBlock) : untrapReadIter f 0 b = b := rfl

theorem untrapWriteIter_zero (f : Nat) (b : TrapBlock) : untrapWriteIter f 0 b = b := rfl

theorem trapReadIter_eq (b0 : TrapBlock) (f : Nat) (h0 : b0.nReadTraps = 0) :
    ∀ n, 1 ≤ n → trapReadIter f n b0 = installedRead b0 f n := by
  intro n hn
  induction n with
  | zero => omega
  | succ n ih =>
    rcases Nat.eq_zero_or_pos n with h1 | h1
    · subst h1
      rw [trapReadIter_succ, trapReadIter_zero, trapRead, if_pos h0]
      rfl
    · rw [trapReadIter_succ, ih h1, trapRead,
        if_neg (fun hc => by simp [installedRead] at hc; omega),
        if_pos (by simp [installedRead])]
      simp [installedRead]

theorem trapWriteIter_eq (b0 : TrapBlock) (f : Nat) (h0 : b0.nWriteTraps = 0) :
    ∀ n, 1 ≤ n → trapWriteIter f n b0 = installedWrite b0 f n := by
  intro n hn
  induction n with
  | zero => omega
  | succ n ih =>
    rcases Nat.eq_zero_or_pos n with h1 | h1
    · subst h1
      rw [trapWriteIter_succ, trapWriteIter_zero, trapWrite, if_pos h0]
      rfl
    · rw [trapWriteIter_succ, ih h1, trapWrite,
        if_neg (fun hc => by simp [installedWrite] at hc; omega),
        if_pos (by simp [installedWrite])]
      simp [installedWrite]

theorem untrapRead_installed_step (b0 : TrapBlock) (f : Nat) (m : Nat) :
    untrapRead f (installedRead b0 f (m + 2)) = (installedRead b0 f (m + 1), true) := by
  rw [untrapRead, if_pos (by simp [installedRead])]
  rw [if_neg (by simp [installedRead])]
  simp [installedRead]

theorem untrapWrite_installed_step (b0 : TrapBlock) (f : Nat) (m : Nat) :
    untrapWrite f (installedWrite b0 f (m + 2)) = (installedWrite b0 f (m + 1), true) := by
  rw [untrapWrite, if_pos (by simp [installedWrite])]
  rw [if_neg (by simp [installedWrite])]
  simp [installedWrite]

theorem untrapRead_installed_one (b0 : TrapBlock) (f : Nat) (h : b0.untrapped) :
    untrapRead f (installedRead b0 f 1) = (b0, true) := by
  obtain ⟨h1, h2, h3, h4, h5, h6⟩ := h
  rw [untrapRead, if_pos (by simp [installedRead])]
  rw [if_pos (by simp [installedRead])]
  cases b0
  simp_all [installedRead]

theorem untrapWrite_installed_one (b0 : TrapBlock) (f : Nat) (h : b0.untrapped) :
    untrapWrite f (installedWrite b0 f 1) = (b0, true) := by
  obtain ⟨h1, h2, h3, h4, h5, h6⟩ := h
  rw [untrapWrite, if_pos (by simp [installedWrite])]
  rw [if_pos (by simp [installedWrite])]
  cases b0
  simp_all [installedWrite]

theorem untrapReadIter_installed (b0 : TrapBlock) (f : Nat) (n : Nat) :
    ∀ k, k + 1 ≤ n → untrapReadIter f k (installedRead b0 f n) = installedRead b0 f (n - k) := by
  intro k
  induction k with
  | zero =>
    intro _
    rw [untrapReadIter_zero, Nat.sub_zero]
  | succ k ih =>
    intro hk
    rw [untrapReadIter_succ, ih (by omega)]
    have h2 : n - k = (n - k - 2) + 2 := by omega
    rw [h2, untrapRead_installed_step]
    have h3 : n - k - 2 + 1 = n - (k + 1) := by omega
    rw [h3]

theorem untrapWriteIter_installed (b0 : TrapBlock) (f : Nat) (n : Nat) :
    ∀ k, k + 1 ≤ n → untrapWriteIter f k (installedWrite b0 f n) = installedWrite b0 f (n - k) := by
  intro k
  induction k with
  | zero =>
    intro _
    rw [untrapWriteIter_zero, Nat.sub_zero]
  | succ k ih =>
    intro hk
    rw [untrapWriteIter_succ, ih (by omega)]
    have h2 : n - k = (n - k - 2) + 2 := by omega
    rw [h2, untrapWrite_installed_step]
    have h3 : n - k - 2 + 1 = n - (k + 1) := by omega
    rw [h3]

/-- Claim C4: for every block with no prior traps, after `n ≥ 1` calls of
`trapRead(a, f)`, the first `n-1` calls of `untrapRead(a, f)` each return true
and leave the trap wrapper installed (`nReadTraps` stays nonzero, `readData`
remains the wrapper), and the `n`-th `untrapRead` restores the block exactly to
its pre-trap state — in particular `readData` is the identical function that
was installed before the first `trapRead`, so every subsequent read returns
exactly what it would have returned without the trap; symmetrically for
`trapWrite`/`untrapWrite`. -/
theorem trap_refcount_restoration (b0 : TrapBlock) (f : Nat) (n : Nat)
    (hn : 1 ≤ n) (h : b0.untrapped) :
    (∀ k, k < n - 1 →
      (untrapRead f (untrapReadIter f k (trapReadIter f n b0))).2 = true ∧
      (untrapRead f (untrapReadIter f k (trapReadIter f n b0))).1.nReadTraps ≠ 0 ∧
      (untrapRead f (untrapReadIter f k (trapReadIter f n b0))).1.readData =
        AccessSlot.wrapper) ∧
    untrapReadIter f n (trapReadIter f n b0) = b0 ∧
    (∀ interp off,
      readThrough interp (untrapReadIter f n (trapReadIter f n b0)) off =
        readThrough interp b0 off) ∧
    (∀ k, k < n - 1 →
      (untrapWrite f (untrapWriteIter f k (trapWriteIter f n b0))).2 = true ∧
      (untrapWrite f (untrapWriteIter f k (trapWriteIter f n b0))).1.nWriteTraps ≠ 0 ∧
      (untrapWrite f (untrapWriteIter f k (trapWriteIter f n b0))).1.writeData =
        AccessSlot.wrapper) ∧
    untrapWriteIter f n (trapWriteIter f n b0) = b0 := by
  have hres : untrapReadIter f n (trapReadIter f n b0) = b0 := by
    rw [trapReadIter_eq b0 f h.1 n hn]
    have hsplit : n = (n - 1) + 1 := by omega
    rw [hsplit, untrapReadIter_succ,
      untrapReadIter_installed b0 f (n - 1 + 1) (n - 1) (by omega)]
    have h1 : n - 1 + 1 - (n - 1) = 1 := by omega
    rw [h1, untrapRead_installed_one b0 f h]
  have hresW : untrapWriteIter f n (trapWriteIter f n b0) = b0 := by
    rw [trapWriteIter_eq b0 f h.2.2.2.1 n hn]
    have hsplit : n = (n - 1) + 1 := by omega
    rw [hsplit, untrapWriteIter_succ,
      untrapWriteIter_installed b0 f (n - 1 + 1) (n - 1) (by omega)]
    have h1 : n - 1 + 1 - (n - 1) = 1 := by omega
    rw [h1, untrapWrite_installed_one b0 f h]
  refine ⟨?_, hres, ?_, ?_, hresW⟩
  · intro k hk
    rw [trapReadIter_eq b0 f h.1 n hn, untrapReadIter_installed b0 f n k (by omega)]
    have h2 : n - k = (n - k - 2) + 2 := by omega
    rw [h2, untrapRead_installed_step]
    refine ⟨rfl, ?_, rfl⟩
    simp [installedRead]
  · intro interp off
    rw [hres]
  · intro k hk
    rw [trapWriteIter_eq b0 f h.2.2.2.1 n hn, untrapWriteIter_installed b0 f n k (by omega)]
    have h1 : n - k = (n - k - 2) + 2 := by omega
    rw [h1, untrapWrite_installed_step]
    refine ⟨rfl, ?_, rfl⟩
    simp [installedWrite]

/-- Claim C4 witness: two stacked read and write traps with callback `9` on a
concrete untrapped block; two untraps restore the block exactly. -/
theorem trap_refcount_restoration_witness :
    untrapReadIter 9 2 (trapReadIter 9 2
      ⟨AccessSlot.fn 5, none, none, 0, AccessSlot.fn 6, none, none, 0⟩) =
      ⟨AccessSlot.fn 5, none, none, 0, AccessSlot.fn 6, none, none, 0⟩ ∧
    untrapWriteIter 9 2 (trapWriteIter 9 2
      ⟨AccessSlot.fn 5, none, none, 0, AccessSlot.fn 6, none, none, 0⟩) =
      ⟨AccessSlot.fn 5, none, none, 0, AccessSlot.fn 6, none, none, 0⟩ := by
  have h := trap_refcount_restoration
    ⟨AccessSlot.fn 5, none, none, 0, AccessSlot.fn 6, none, none, 0⟩ 9 2
    (by decide) (by decide)
  exact ⟨h.2.1, h.2.2.2.2⟩

theorem updateModeSlotsProt_expdown (sel acc : Nat)
    (hnull : sel &&& (0xffff ^^^ SEL_RPL) ≠ 0)
    (hseg : acc &&& TYPE_SEG ≠ 0)
    (hexp : acc &&& (TYPE_CODE ||| TYPE_EXPDOWN) = TYPE_EXPDOWN)
    (hwr : acc &&& TYPE_WRITABLE ≠ 0) :
    updateModeSlotsProt sel acc = (CheckSlot.protDown, CheckSlot.protDown, true) := by
  have hcode0 : acc &&& 2048 = 0 := by
    have h : (acc &&& (TYPE_CODE ||| TYPE_EXPDOWN)) &&& 2048 = TYPE_EXPDOWN &&& 2048 :=
      congrArg (fun t => t &&& 2048) hexp
    rw [TYPE_CODE, TYPE_EXPDOWN] at h
    rw [Nat.and_assoc] at h
    rw [show ((2048 : Nat) ||| 1024) &&& 2048 = 2048 by decide,
        show (1024 : Nat) &&& 2048 = 0 by decide] at h
    exact h
  have h3 : ¬(acc &&& TYPE_CODE_READABLE = TYPE_CODE_EXECONLY) := by
    intro hq
    have h : (acc &&& TYPE_CODE_READABLE) &&& 2048 = TYPE_CODE_EXECONLY &&& 2048 :=
      congrArg (fun t => t &&& 2048) hq
    rw [TYPE_CODE_READABLE, TYPE_CODE_EXECONLY] at h
    rw [Nat.and_assoc] at h
    rw [show (6656 : Nat) &&& 2048 = 2048 by decide,
        show (6144 : Nat) &&& 2048 = 2048 by decide] at h
    rw [hcode0] at h
    exact absurd h (by norm_num)
  have h4 : ¬(acc &&& TYPE_CODE ≠ 0 ∨ acc &&& TYPE_WRITABLE = 0) := by
    rw [TYPE_CODE]
    push_neg
    exact ⟨hcode0, hwr⟩
  unfold updateModeSlotsProt
  rw [if_neg hnull, if_pos hseg]
  simp only [if_neg h3, if_neg h4, if_pos hexp]
  simp

theorem updateMode_load_mem (s : X86SegState) (mem : Mem) (d : Nat)
    (hd : s.addrDesc = some d) (hnull : s.sel &&& (0xffff ^^^ SEL_RPL) ≠ 0) :
    (updateMode true true s mem).2 (d + TYPE_OFFSET) =
      mem (d + TYPE_OFFSET) ||| (TYPE_ACCESSED >>> 8) := by
  unfold updateMode
  simp only [hd, hnull, if_true, reduceIte, ite_true, if_pos, ne_eq,
    not_false_iff]
  simp [Function.update_same]

/-- Claim C6: after every successful protected-mode load of a non-null
selector (non-RPL bits nonzero) with a valid descriptor address `d` — the
install tail of `loadDesc8` followed by `updateMode(true)` — the byte in
memory at the descriptor's access-rights offset `d + 5` has the ACCESSED
bit set. -/
theorem loadProt_sets_accessed_bit (s0 : X86SegState)
    (sel base limit acc ext d : Nat) (mem : Mem) (memNew : Mem)
    (hm : memNew = (loadDesc8Install s0 sel base limit acc ext (some d) mem).2)
    (hnull : sel &&& (0xffff ^^^ SEL_RPL) ≠ 0) :
    memNew (d + TYPE_OFFSET) &&& (TYPE_ACCESSED >>> 8) = TYPE_ACCESSED >>> 8 := by
  subst hm
  unfold loadDesc8Install
  rw [updateMode_load_mem _ mem d rfl hnull]
  rw [show TYPE_ACCESSED >>> 8 = 1 by decide]
  exact or_one_and_one _

/-- Claim C6 witness: a concrete protected-mode load (selector `0x0008`,
descriptor at `0x0100`) leaves the ACCESSED bit set at address `0x0105`. -/
theorem loadProt_sets_accessed_bit_witness :
    (loadDesc8Install (X86SegState.init ID_DATA) 0x8 0x40000 0xffff 0x9200 0
        (some 0x100) (fun _ => 0)).2 (0x100 + TYPE_OFFSET) &&&
      (TYPE_ACCESSED >>> 8) = TYPE_ACCESSED >>> 8 :=
  loadProt_sets_accessed_bit (X86SegState.init ID_DATA) 0x8 0x40000 0xffff
    0x9200 0 0x100 (fun _ => 0) _ rfl (by decide)

/-- Claim C2 counterexample: an expand-down writable data segment with limit
`L = 10` (descriptor `acc = 0x9600`), loaded through `loadDesc8`, accepts
`checkWrite(off = 10, cb = 2)` and returns `base + off`, even though
`off > L` is false — refuting "checkWrite(off, cb) succeeds iff off > L" for
byte counts greater than 1. -/
theorem checkWriteProtDown_succeeds_at_limit_cb2 :
    (loadDesc8Install (X86SegState.init ID_STACK) 0x10 0 10 0x9600 0
        (some 0x80) (fun _ => 0)).1.checkWriteSlot = CheckSlot.protDown ∧
    runCheckWrite
      (loadDesc8Install (X86SegState.init ID_STACK) 0x10 0 10 0x9600 0
        (some 0x80) (fun _ => 0)).1 10 2 true = CheckResult.addr 10 ∧
    ¬((10 : Nat) > 10) := by
  refine ⟨by decide, ?_, by decide⟩
  decide

/-- Claim C2 (amended): for a protected-mode data segment loaded from a
descriptor with EXPDOWN set, CODE clear and WRITABLE set (non-null selector),
`checkWrite` dispatches to the expand-down variant, and for every `cb ≥ 1`,
`checkWrite(off, cb)` succeeds — returning `(base + off) | 0` — if and only
if `(off >>> 0) + cb > L + 1` (for `cb = 1` this is exactly `off > L`); on
failure it raises `#GP(0)` unless `suppress` is true. -/
theorem checkWriteProtDown_spec (s0 : X86SegState)
    (sel base limit acc ext : Nat) (ad : Option Nat) (mem : Mem)
    (s : X86SegState)
    (hs : s = (loadDesc8Install s0 sel base limit acc ext ad mem).1)
    (hnull : sel &&& (0xffff ^^^ SEL_RPL) ≠ 0)
    (hseg : acc &&& TYPE_SEG ≠ 0)
    (hexp : acc &&& (TYPE_CODE ||| TYPE_EXPDOWN) = TYPE_EXPDOWN)
    (hwr : acc &&& TYPE_WRITABLE ≠ 0) :
    s.checkWriteSlot = CheckSlot.protDown ∧ s.fExpDown = true ∧
    s.offMax = limit + 1 ∧
    (∀ off cb fSuppress, 1 ≤ cb →
      (runCheckWrite s off cb fSuppress = CheckResult.addr (toInt32 (s.base + off)) ↔
        off % TWO_POW32 + cb > limit + 1) ∧
      (off % TWO_POW32 + cb ≤ limit + 1 →
        runCheckWrite s off cb fSuppress = CheckResult.invalid (!fSuppress)) ∧
      (cb = 1 →
        (runCheckWrite s off cb fSuppress = CheckResult.addr (toInt32 (s.base + off)) ↔
          off % TWO_POW32 > limit))) := by
  have hslots := updateModeSlotsProt_expdown sel acc hnull hseg hexp hwr
  have hcw : s.checkWriteSlot = CheckSlot.protDown := by
    rw [hs]
    unfold loadDesc8Install updateMode
    simp only [reduceIte, ite_true]
    simp [hslots]
  have hfe : s.fExpDown = true := by
    rw [hs]
    unfold loadDesc8Install updateMode
    simp only [reduceIte, ite_true]
    simp [hslots]
  have hoff : s.offMax = limit + 1 := by
    rw [hs]
    unfold loadDesc8Install updateMode
    simp only [reduceIte, ite_true]
  refine ⟨hcw, hfe, hoff, ?_⟩
  intro off cb fSuppress hcb
  rw [runCheckWrite, hcw]
  simp only [checkWriteProtDown, checkWriteProtDisallowed, hoff]
  refine ⟨?_, ?_, ?_⟩
  · by_cases hgt : off % TWO_POW32 + cb > limit + 1
    · simp [hgt]
    · simp [hgt, if_neg hgt]
  · intro hle
    rw [if_neg (by omega)]
  · intro hcb1
    subst hcb1
    by_cases hgt : off % TWO_POW32 + 1 > limit + 1
    · rw [if_pos hgt]
      constructor
      · intro _
        omega
      · intro _
        rfl
    · rw [if_neg hgt]
      constructor
      · intro hx
        exact absurd hx (by simp)
      · intro hx
        omega

/-- Claim C2 witness: on the segment of the counterexample descriptor
(limit 10), `checkWrite(11, 1)` succeeds and returns `base + 11`. -/
theorem checkWriteProtDown_spec_witness :
    runCheckWrite
      (loadDesc8Install (X86SegState.init ID_STACK) 0x10 0 10 0x9600 0
        (some 0x80) (fun _ => 0)).1 11 1 true =
      CheckResult.addr (toInt32
        ((loadDesc8Install (X86SegState.init ID_STACK) 0x10 0 10 0x9600 0
          (some 0x80) (fun _ => 0)).1.base + 11)) := by
  have h := checkWriteProtDown_spec (X86SegState.init ID_STACK) 0x10 0 10
    0x9600 0 (some 0x80) (fun _ => 0) _ rfl (by decide) (by decide)
    (by decide) (by decide)
  exact ((h.2.2.2 11 1 true (by decide)).2.2 rfl).mpr (by decide)

theorem jsShl_one_mask (n : Nat) (hn : 1 ≤ n) (hlt : n < 32) :
    (toUint32 (jsShl 1 n - 1)).toNat = 2 ^ n - 1 := by
  interval_cases n <;> decide

theorem truncateBits_unsigned (v : Int) (n : Nat) (hn : 1 ≤ n) :
    truncateBits v n true = v.emod (2 ^ n) := by
  unfold truncateBits
  rw [if_pos rfl]
  by_cases h32 : n = 32
  · subst h32
    rw [if_pos rfl]
    show v.emod 4294967296 = v.emod (2 ^ 32)
    norm_num
  · rw [if_neg h32]
    by_cases hlt : n < 32
    · rw [if_pos hlt]
      unfold jsAnd
      rw [jsShl_one_mask n hn hlt]
      rw [Nat.and_pow_two_sub_one_eq_mod]
      have hmlt : (toUint32 v).toNat % 2 ^ n < 2147483648 := by
        have h1 : (toUint32 v).toNat % 2 ^ n < 2 ^ n :=
          Nat.mod_lt _ (Nat.pos_pow_of_pos n (by omega))
        have h2 : (2 : Nat) ^ n ≤ 2 ^ 31 := Nat.pow_le_pow_right (by omega) (by omega)
        have h3 : (2 : Nat) ^ 31 = 2147483648 := by norm_num
        omega
      rw [if_pos hmlt]
      have hnn : 0 ≤ toUint32 v := Int.emod_nonneg v (by norm_num)
      push_cast
      rw [Int.toNat_of_nonneg hnn]
      show (v % 4294967296) % 2 ^ n = v % 2 ^ n
      rw [show (4294967296 : Int) = 2 ^ 32 by norm_num]
      exact Int.emod_emod_of_dvd v (pow_dvd_pow 2 (by omega))
    · rw [if_neg hlt]
      by_cases hvr : v < 0 ∨ v ≥ 2 ^ n
      · rw [if_pos hvr]
        have h := tmod_fix v (2 ^ n) (by positivity)
        simp only [jsRem]
        rw [← h]
      · rw [if_neg hvr]
        push_neg at hvr
        exact (Int.emod_eq_of_lt hvr.1 hvr.2).symm

/-- Claim C8: for every exactly representable integer `x` and every
`n ≥ 1`, `truncate(x, n, true)` equals `((x mod 2^n) + 2^n) mod 2^n`, the
unique value in `[0, 2^n)` congruent to `x` modulo `2^n` (here `Int.emod`). -/
theorem truncate_unsigned_mod (d : Nat) (v : Int) (n : Nat) (hn : 1 ≤ n) :
    truncate d v n true = v.emod (2 ^ n) := by
  unfold truncate
  rw [if_neg (by omega : ¬n = 0)]
  exact truncateBits_unsigned v n hn

/-- Claim C8 witness: `truncate(-5, 8, true) = 251 = (-5) mod 256`. -/
theorem truncate_unsigned_mod_witness :
    truncate 16 (-5) 8 true = Int.emod (-5) (2 ^ 8) :=
  truncate_unsigned_mod 16 (-5) 8 (by decide)

theorem mod_two_pow_32_and (a : Nat) (w : Nat) (hw : w ≤ 32) :
    (a % TWO_POW32) &&& (2 ^ w - 1) = a % 2 ^ w := by
  rw [Nat.and_pow_two_sub_one_eq_mod]
  rw [show TWO_POW32 = 2 ^ 32 by norm_num [TWO_POW32]]
  exact Nat.mod_mod_of_dvd a (pow_dvd_pow 2 hw)

theorem blockIndex_mod (bus : BusRoute) (a : Nat) (hw : bus.addrWidth ≤ 31) :
    bus.blockIndex a = (a % 2 ^ bus.addrWidth) >>> bus.blockShift := by
  unfold BusRoute.blockIndex BusRoute.addrLimit
  rw [mod_two_pow_32_and a bus.addrWidth (by omega)]

theorem blockOffset_mod (bus : BusRoute) (a : Nat) (hws : bus.blockShift ≤ bus.addrWidth)
    (hw : bus.addrWidth ≤ 31) :
    bus.blockOffset a = (a % 2 ^ bus.addrWidth) % 2 ^ bus.blockShift := by
  unfold BusRoute.blockOffset BusRoute.blockLimit
  rw [mod_two_pow_32_and a bus.blockShift (by omega)]
  exact (Nat.mod_mod_of_dvd a (pow_dvd_pow 2 hws)).symm

/-- Claim C9: for every address `a`, `readData(a)` reads the same block and
offset as `readData(a mod 2^addrWidth)` and returns the same value,
`writeData(a, v)` stores to exactly the same location as
`writeData(a mod 2^addrWidth, v)`, and the computed block index always lies
below `blockTotal` (no access indexes outside the block table). -/
theorem bus_address_wrapping (bus : BusRoute) (a v : Nat)
    (hws : bus.blockShift ≤ bus.addrWidth) (hw : bus.addrWidth ≤ 31) :
    bus.readData a = bus.readData (a % 2 ^ bus.addrWidth) ∧
    bus.writeData a v = bus.writeData (a % 2 ^ bus.addrWidth) v ∧
    bus.blockIndex a < bus.blockTotal := by
  have hmod : a % 2 ^ bus.addrWidth % 2 ^ bus.addrWidth = a % 2 ^ bus.addrWidth :=
    Nat.mod_mod_of_dvd a dvd_rfl
  have hidx : bus.blockIndex a = bus.blockIndex (a % 2 ^ bus.addrWidth) := by
    rw [blockIndex_mod bus a hw, blockIndex_mod bus (a % 2 ^ bus.addrWidth) hw, hmod]
  have hoff : bus.blockOffset a = bus.blockOffset (a % 2 ^ bus.addrWidth) := by
    rw [blockOffset_mod bus a hws hw, blockOffset_mod bus (a % 2 ^ bus.addrWidth) hws hw,
      hmod]
  refine ⟨?_, ?_, ?_⟩
  · unfold BusRoute.readData
    rw [hidx, hoff]
  · unfold BusRoute.writeData
    rw [hidx, hoff]
  · rw [blockIndex_mod bus a hw]
    unfold BusRoute.blockTotal
    rw [Nat.shiftRight_eq_div_pow]
    have hlt : a % 2 ^ bus.addrWidth < 2 ^ bus.addrWidth :=
      Nat.mod_lt a (Nat.pos_pow_of_pos _ (by omega))
    rw [Nat.div_lt_iff_lt_mul (Nat.pos_pow_of_pos _ (by omega))]
    calc a % 2 ^ bus.addrWidth < 2 ^ bus.addrWidth := hlt
      _ = 2 ^ (bus.addrWidth - bus.blockShift) * 2 ^ bus.blockShift := by
          rw [← pow_add]
          congr 1
          omega

/-- Claim C9 witness: on a 16-bit bus with 1KB blocks, address `0x12345`
wraps to `0x2345` for both reads and writes, and the block index stays in
range. -/
theorem bus_address_wrapping_witness :
    BusRoute.readData ⟨16, 10, fun _ _ => 0⟩ 0x12345 =
      BusRoute.readData ⟨16, 10, fun _ _ => 0⟩ (0x12345 % 2 ^ 16) ∧
    BusRoute.writeData ⟨16, 10, fun _ _ => 0⟩ 0x12345 7 =
      BusRoute.writeData ⟨16, 10, fun _ _ => 0⟩ (0x12345 % 2 ^ 16) 7 ∧
    BusRoute.blockIndex ⟨16, 10, fun _ _ => 0⟩ 0x12345 <
      BusRoute.blockTotal ⟨16, 10, fun _ _ => 0⟩ :=
  bus_address_wrapping ⟨16, 10, fun _ _ => 0⟩ 0x12345 7 (by decide) (by decide)

theorem addBlocksGo_false (blockSize : Nat) (ty : MemType) (block? : Option Memory) :
    ∀ (fuel : Nat) (blocks : List Memory) (addrNext sizeLeft offset iBlock : Nat),
      (addBlocksGo blockSize ty block? fuel blocks addrNext sizeLeft offset iBlock).2 = false →
      ∃ i, iBlock ≤ i ∧ i < blocks.length ∧
        (∃ m, blocks.get? i = some m ∧ m.type ≠ MemType.NONE) ∧
        ∀ j, i ≤ j →
          (addBlocksGo blockSize ty block? fuel blocks addrNext sizeLeft offset
            iBlock).1.get? j = blocks.get? j := by
  intro fuel
  induction fuel with
  | zero =>
    intro blocks addrNext sizeLeft offset iBlock h
    simp [addBlocksGo] at h
  | succ fuel ih =>
    intro blocks addrNext sizeLeft offset iBlock h
    by_cases hc : sizeLeft > 0 ∧ iBlock < blocks.length
    · cases heq : blocks.get? iBlock with
      | none =>
        exfalso
        have hge := List.get?_eq_none.mp heq
        omega
      | some m =>
        by_cases hty : m.type ≠ MemType.NONE
        · have hstep : addBlocksGo blockSize ty block? (fuel + 1) blocks addrNext
              sizeLeft offset iBlock = (blocks, false) := by
            rw [addBlocksGo, if_pos hc, heq]
            dsimp only
            rw [if_pos hty]
          rw [hstep] at h ⊢
          exact ⟨iBlock, le_refl _, hc.2, ⟨m, heq, hty⟩, fun j _ => rfl⟩
        · rw [addBlocksGo, if_pos hc, heq] at h ⊢
          dsimp only at h ⊢
          rw [if_neg hty] at h ⊢
          obtain ⟨i, hi1, hi2, ⟨m', hm', hty'⟩, hunch⟩ := ih _ _ _ _ _ h
          rw [List.length_set] at hi2
          refine ⟨i, by omega, hi2, ⟨m', ?_, hty'⟩, ?_⟩
          · rw [← hm', List.get?_set_ne _ _ (by omega)]
          · intro j hj
            rw [hunch j hj, List.get?_set_ne _ _ (by omega)]
    · rw [addBlocksGo, if_neg hc] at h
      simp at h

theorem addBlocksGo_conflict (blockSize : Nat) (ty : MemType) (block? : Option Memory)
    (hbs : 0 < blockSize) :
    ∀ (fuel : Nat) (blocks : List Memory) (addrNext sizeLeft offset iBlock j : Nat)
      (m : Memory),
      blocks.length ≤ iBlock + fuel →
      iBlock * blockSize ≤ addrNext →
      addrNext < (iBlock + 1) * blockSize →
      0 < sizeLeft →
      iBlock ≤ j → j < blocks.length →
      j * blockSize < addrNext + sizeLeft →
      blocks.get? j = some m → m.type ≠ MemType.NONE →
      (addBlocksGo blockSize ty block? fuel blocks addrNext sizeLeft offset iBlock).2 =
        false := by
  intro fuel
  induction fuel with
  | zero =>
    intro blocks addrNext sizeLeft offset iBlock j m hfuel hal hau hsz hij hjl hjc hm hty
    omega
  | succ fuel ih =>
    intro blocks addrNext sizeLeft offset iBlock j m hfuel hal hau hsz hij hjl hjc hm hty
    have hcond : sizeLeft > 0 ∧ iBlock < blocks.length := ⟨hsz, by omega⟩
    rcases Nat.eq_or_lt_of_le hij with heqj | hltj
    · subst heqj
      rw [addBlocksGo, if_pos hcond, hm]
      dsimp only
      rw [if_pos hty]
    · obtain ⟨m0, heq0⟩ : ∃ m0, blocks.get? iBlock = some m0 := by
        cases h0 : blocks.get? iBlock with
        | none => exact absurd (List.get?_eq_none.mp h0) (by omega)
        | some x => exact ⟨x, rfl⟩
      by_cases hty0 : m0.type ≠ MemType.NONE
      · rw [addBlocksGo, if_pos hcond, heq0]
        dsimp only
        rw [if_pos hty0]
      · rw [addBlocksGo, if_pos hcond, heq0]
        dsimp only
        rw [if_neg hty0]
        have hd1 : (iBlock + 1) * blockSize = iBlock * blockSize + blockSize := by ring
        have hd2 : (iBlock + 1 + 1) * blockSize =
            iBlock * blockSize + blockSize + blockSize := by ring
        have hjk : (iBlock + 1) * blockSize ≤ j * blockSize :=
          Nat.mul_le_mul_right _ (by omega)
        have hsb : ¬(blockSize - (addrNext - iBlock * blockSize) > sizeLeft) := by omega
        rw [if_neg hsb]
        refine ih _ _ _ _ _ j m ?_ ?_ ?_ ?_ ?_ ?_ ?_ ?_ ?_
        · rw [List.length_set]
          omega
        · omega
        · omega
        · omega
        · omega
        · rw [List.length_set]
          omega
        · omega
        · rw [List.get?_set_ne _ _ (show iBlock ≠ j by omega)]
          exact hm
        · exact hty

/-- Claim C1 (amended): when some index covered by `addBlocks(addr, size,
type, block)` holds a non-NONE block, `addBlocks` returns false and leaves the
conflicting index and every later index unchanged — but indices covered
BEFORE the first conflicting one have already been replaced; only when the
conflict is at the very first covered index (`addr >>> blockShift`) is the
block table completely unchanged.  An index `j` is covered by the nonempty
request `[addr, addr + size)` when `addr >>> blockShift ≤ j` (the request
starts before block `j` ends) and `j * blockSize < addr + size` (the request
reaches into block `j`); `blockSize = 2 ^ blockShift` is the bus constructor
invariant. -/
theorem addBlocks_conflict_spec (bus : BusBlocks) (addr size : Nat) (ty : MemType)
    (blk : Option Memory) :
    (∀ j m, bus.blockSize = 2 ^ bus.blockShift → 0 < size →
      addr >>> bus.blockShift ≤ j → j < bus.blocks.length →
      j * bus.blockSize < addr + size →
      bus.blocks.get? j = some m → m.type ≠ MemType.NONE →
      (addBlocks bus addr size ty blk).2 = false) ∧
    ((addBlocks bus addr size ty blk).2 = false →
      ∃ i, addr >>> bus.blockShift ≤ i ∧ i < bus.blocks.length ∧
        (∃ m, bus.blocks.get? i = some m ∧ m.type ≠ MemType.NONE) ∧
        ∀ j, i ≤ j →
          (addBlocks bus addr size ty blk).1.blocks.get? j = bus.blocks.get? j) ∧
    (∀ m, bus.blocks.get? (addr >>> bus.blockShift) = some m →
      m.type ≠ MemType.NONE → 0 < size →
      addBlocks bus addr size ty blk = (bus, false)) := by
  refine ⟨?_, ?_, ?_⟩
  · intro j m hbs hsize hij hjl hjc hm hty
    have hbs0 : 0 < bus.blockSize := by
      rw [hbs]
      exact Nat.pos_pow_of_pos _ (by omega)
    have hi0l : addr >>> bus.blockShift * bus.blockSize ≤ addr := by
      rw [hbs, Nat.shiftRight_eq_div_pow]
      exact Nat.div_mul_le_self addr _
    have hi0u : addr < (addr >>> bus.blockShift + 1) * bus.blockSize := by
      rw [hbs, Nat.shiftRight_eq_div_pow]
      have h1 := Nat.div_add_mod addr (2 ^ bus.blockShift)
      have h2 := Nat.mod_lt addr (y := 2 ^ bus.blockShift) (Nat.pos_pow_of_pos _ (by omega))
      have h3 : (addr / 2 ^ bus.blockShift + 1) * 2 ^ bus.blockShift =
          2 ^ bus.blockShift * (addr / 2 ^ bus.blockShift) + 2 ^ bus.blockShift := by
        ring
      omega
    unfold addBlocks
    exact addBlocksGo_conflict bus.blockSize ty blk hbs0 bus.blocks.length bus.blocks
      addr size 0 (addr >>> bus.blockShift) j m
      (Nat.le_add_left bus.blocks.length (addr >>> bus.blockShift)) hi0l hi0u hsize hij
      hjl hjc hm hty
  · intro h
    unfold addBlocks at h ⊢
    obtain ⟨i, hi1, hi2, hconf, hunch⟩ :=
      addBlocksGo_false bus.blockSize ty blk bus.blocks.length bus.blocks addr size 0
        (addr >>> bus.blockShift) h
    exact ⟨i, hi1, hi2, hconf, fun j hj => hunch j hj⟩
  · intro m hm hty hsize
    have hlt : addr >>> bus.blockShift < bus.blocks.length := by
      rcases List.get?_eq_some.mp hm with ⟨hlt, _⟩
      exact hlt
    have hpos : 0 < bus.blocks.length := Nat.lt_of_le_of_lt (Nat.zero_le _) hlt
    obtain ⟨L, hL⟩ : ∃ L, bus.blocks.length = L + 1 := ⟨bus.blocks.length - 1, by omega⟩
    unfold addBlocks
    rw [hL, addBlocksGo, if_pos ⟨hsize, hlt⟩, hm]
    dsimp only
    rw [if_pos hty]

/-- Claim C1 counterexample: with `blockSize = 4` and a RAM block at index 1,
`addBlocks(0, 8, RAM)` returns false but has already replaced the NONE block
at index 0, so the block table is mutated despite the failure return. -/
theorem addBlocks_conflict_mutates :
    (addBlocks ⟨4, 2, [⟨MemType.NONE, none, 4, none⟩, ⟨MemType.RAM, some 4, 4, none⟩]⟩
        0 8 MemType.RAM none).2 = false ∧
    (addBlocks ⟨4, 2, [⟨MemType.NONE, none, 4, none⟩, ⟨MemType.RAM, some 4, 4, none⟩]⟩
        0 8 MemType.RAM none).1.blocks.get? 0 ≠
      some ⟨MemType.NONE, none, 4, none⟩ := by
  decide

/-- Claim C1 witness: in the counterexample configuration the covered
conflicting index 1 forces the false return, and the failure leaves the
conflicting index and everything after it unchanged. -/
theorem addBlocks_conflict_spec_witness :
    ((addBlocks (BusBlocks.mk 4 2
        [⟨MemType.NONE, none, 4, none⟩, ⟨MemType.RAM, some 4, 4, none⟩])
      0 8 MemType.RAM none).2 = false) ∧
    ∃ i, 0 >>> 2 ≤ i ∧
      i < (BusBlocks.mk 4 2
        [⟨MemType.NONE, none, 4, none⟩, ⟨MemType.RAM, some 4, 4, none⟩]).blocks.length ∧
      (∃ m, (BusBlocks.mk 4 2
          [⟨MemType.NONE, none, 4, none⟩,
           ⟨MemType.RAM, some 4, 4, none⟩]).blocks.get? i = some m ∧
        m.type ≠ MemType.NONE) ∧
      ∀ j, i ≤ j →
        (addBlocks (BusBlocks.mk 4 2
            [⟨MemType.NONE, none, 4, none⟩, ⟨MemType.RAM, some 4, 4, none⟩])
          0 8 MemType.RAM none).1.blocks.get? j =
        (BusBlocks.mk 4 2
          [⟨MemType.NONE, none, 4, none⟩,
           ⟨MemType.RAM, some 4, 4, none⟩]).blocks.get? j :=
  ⟨(addBlocks_conflict_spec
      (BusBlocks.mk 4 2 [⟨MemType.NONE, none, 4, none⟩, ⟨MemType.RAM, some 4, 4, none⟩])
      0 8 MemType.RAM none).1 1 ⟨MemType.RAM, some 4, 4, none⟩ (by decide) (by decide)
      (by decide) (by decide) (by decide) (by decide) (by decide),
   (addBlocks_conflict_spec
      (BusBlocks.mk 4 2 [⟨MemType.NONE, none, 4, none⟩, ⟨MemType.RAM, some 4, 4, none⟩])
      0 8 MemType.RAM none).2.1 (by decide)⟩
